import Mathlib

/-!
Shallow embedding of the shift-control core of `src/a340-controller.ino`
(A340E transmission controller) together with proofs about its behaviour.

The C++ source keeps one mutable `TransmissionState`, one `SensorData`
snapshot, two static locals inside `isKickdownRequested`, the two binary
gear solenoids and a global shift counter.  The embedding threads all of
that state explicitly: `millis()` becomes a `Nat` argument (the source's
`unsigned long` clock; subtraction of an earlier timestamp from a later
one coincides with `Nat` subtraction on the no-wraparound horizon the
spec guarantees), C `int` values become `Int`, and every function below
mirrors the control flow of the source function of the same name.
-/

namespace A340

/-- The `ShiftState` enum of the source. -/
inductive ShiftState where
  | Stable
  | Requested
  | InProgress
  | Completing
deriving DecidableEq, Repr

/-- A three-element `int` array (`shift_quality_offset[3]`, `shift_count[3]`),
indexed by an `Int` as in the source; the source always guards the index
to `{0,1,2}` before access. -/
structure Arr3 where
  a0 : Int
  a1 : Int
  a2 : Int
deriving DecidableEq, Repr

def Arr3.get (a : Arr3) (i : Int) : Int :=
  if i = 0 then a.a0 else if i = 1 then a.a1 else a.a2

def Arr3.set (a : Arr3) (i : Int) (v : Int) : Arr3 :=
  if i = 0 then { a with a0 := v } else if i = 1 then { a with a1 := v } else { a with a2 := v }

/-- The mutable `TransmissionState` struct of the source. -/
structure TransmissionState where
  current_gear : Int
  target_gear : Int
  shift_state : ShiftState
  shift_start_time : Nat
  last_shift_time : Nat
  shift_duration_ms : Nat
  kickdown_active : Bool
  power_mode : Bool
  lockup_engaged : Bool
  lockup_duty : Int
  accumulator_duty : Int
  shift_quality_offset : Arr3
  shift_count : Arr3
  limp_mode : Bool
deriving DecidableEq, Repr

/-- The fields of the `SensorData` struct that the shift-control core reads
(filtering and raw-ADC fields are the sensor provider's business and are
not consumed by the control functions below). -/
structure SensorData where
  throttle_percent : Int
  vehicle_speed_kmh : Int
  fluid_temp_c : Int
  brake_pressed : Bool
  overdrive_enabled : Bool
deriving DecidableEq, Repr

/-- The two static locals of `isKickdownRequested`. -/
structure KickdownState where
  last_throttle : Int
  throttle_change_time : Nat
deriving DecidableEq, Repr

/-- The two binary gear-select solenoid outputs (S1_PIN, S2_PIN). -/
structure Solenoids where
  s1 : Bool
  s2 : Bool
deriving DecidableEq, Repr

/-- All state a control tick can touch: the transmission state, the
kickdown detector statics, the gear solenoids and `stats.total_shifts`. -/
structure World where
  ts : TransmissionState
  kd : KickdownState
  sol : Solenoids
  total_shifts : Nat
deriving DecidableEq, Repr

/-! Shift-logic constants (the `#define`s of the source). -/

def KICKDOWN_THRESHOLD : Int := 85
def KICKDOWN_4_3_SPEED : Int := 120
def KICKDOWN_3_2_SPEED : Int := 90
def KICKDOWN_2_1_SPEED : Int := 50

def SHIFT_DELAY : Nat := 150
def SHIFT_COMPLETE_TIME : Nat := 500
def SHIFT_INHIBIT_TIME : Nat := 800

def ACC_SOFT : Int := 70
def ACC_MEDIUM : Int := 50
def ACC_FIRM : Int := 30
def ACC_KICKDOWN : Int := 20

def LOCKUP_ENABLE_GEAR : Int := 3
def LOCKUP_ENABLE_SPEED : Int := 60
def LOCKUP_DISABLE_SPEED : Int := 50
def LOCKUP_THROTTLE_MAX : Int := 70

/-- A five-breakpoint shift-point table (`const int table[5]`). -/
structure Table5 where
  t0 : Int
  t1 : Int
  t2 : Int
  t3 : Int
  t4 : Int
deriving DecidableEq, Repr

def SHIFT_1_2_UP : Table5 := ⟨15, 20, 30, 45, 60⟩
def SHIFT_2_3_UP : Table5 := ⟨35, 45, 60, 80, 100⟩
def SHIFT_3_4_UP : Table5 := ⟨55, 65, 85, 110, 130⟩

def SHIFT_2_1_DOWN : Table5 := ⟨10, 12, 18, 25, 35⟩
def SHIFT_3_2_DOWN : Table5 := ⟨28, 35, 48, 65, 80⟩
def SHIFT_4_3_DOWN : Table5 := ⟨48, 55, 72, 95, 115⟩

def SHIFT_1_2_UP_PWR : Table5 := ⟨20, 30, 45, 60, 75⟩
def SHIFT_2_3_UP_PWR : Table5 := ⟨45, 60, 80, 100, 120⟩
def SHIFT_3_4_UP_PWR : Table5 := ⟨70, 85, 110, 130, 150⟩

/-- Arduino's `map(x, in_min, in_max, out_min, out_max)`; C integer
division truncates toward zero, which is `Int.tdiv`. -/
def mapC (x inMin inMax outMin outMax : Int) : Int :=
  Int.tdiv ((x - inMin) * (outMax - outMin)) (inMax - inMin) + outMin

/-- `getShiftPoint` of the source. -/
def getShiftPoint (table : Table5) (throttle_percent : Int) : Int :=
  if throttle_percent ≤ 10 then table.t0
  else if throttle_percent ≤ 25 then mapC throttle_percent 10 25 table.t0 table.t1
  else if throttle_percent ≤ 50 then mapC throttle_percent 25 50 table.t1 table.t2
  else if throttle_percent ≤ 75 then mapC throttle_percent 50 75 table.t2 table.t3
  else mapC throttle_percent 75 100 table.t3 table.t4

/-- `isKickdownRequested` of the source.  Returns the `bool` result paired
with the updated static locals.  The source records a sharp rise only for
`throttle - last_throttle > 20` (strict), and tests the recency window
against the possibly-just-updated timestamp. -/
def isKickdownRequested (s : SensorData) (now : Nat) (kd : KickdownState) :
    Bool × KickdownState :=
  let ct : Nat :=
    if s.throttle_percent - kd.last_throttle > 20 then now else kd.throttle_change_time
  (decide (s.throttle_percent > KICKDOWN_THRESHOLD) && decide (now - ct < 200),
   { last_throttle := s.throttle_percent, throttle_change_time := ct })

/-- The value `determineTargetGear` computes for the `kickdown` flag
returned by `isKickdownRequested`.  The source initialises
`target = current_gear`, applies the overdrive clamp, and then lets the
upshift block, the downshift block and the brake-assist block each
overwrite `target` (every block is guarded by mutually exclusive
`current_gear` tests, and a later block's write wins), with the kickdown
cases returning early before all of that.  The value of that overwrite
sequence is rendered here as a first-match chain in reverse write order:
kickdown, then brake-assist, then downshifts, then upshifts, then the
overdrive clamp, then `current_gear`. -/
def selectTarget (ts : TransmissionState) (s : SensorData) (kick : Bool) : Int :=
  if kick = true ∧ ts.current_gear = 4 ∧ s.vehicle_speed_kmh < KICKDOWN_4_3_SPEED then 3
  else if kick = true ∧ ts.current_gear = 3 ∧ s.vehicle_speed_kmh < KICKDOWN_3_2_SPEED then 2
  else if kick = true ∧ ts.current_gear = 2 ∧ s.vehicle_speed_kmh < KICKDOWN_2_1_SPEED then 1
  else
    (if s.brake_pressed = true ∧ s.throttle_percent < 5 ∧
        ts.current_gear = 4 ∧ s.vehicle_speed_kmh < 70 then 3
     else if s.brake_pressed = true ∧ s.throttle_percent < 5 ∧
             ts.current_gear = 3 ∧ s.vehicle_speed_kmh < 45 then 2
     else
       (if ts.current_gear = 4 ∧
           s.vehicle_speed_kmh < getShiftPoint SHIFT_4_3_DOWN s.throttle_percent then 3
        else if ts.current_gear = 3 ∧
                s.vehicle_speed_kmh < getShiftPoint SHIFT_3_2_DOWN s.throttle_percent then 2
        else if ts.current_gear = 2 ∧
                s.vehicle_speed_kmh < getShiftPoint SHIFT_2_1_DOWN s.throttle_percent then 1
        else
          (if ts.current_gear = 1 ∧
              s.vehicle_speed_kmh >
                getShiftPoint (if ts.power_mode then SHIFT_1_2_UP_PWR else SHIFT_1_2_UP)
                  s.throttle_percent then 2
           else if ts.current_gear = 2 ∧
                   s.vehicle_speed_kmh >
                     getShiftPoint (if ts.power_mode then SHIFT_2_3_UP_PWR else SHIFT_2_3_UP)
                       s.throttle_percent then 3
           else if ts.current_gear = 3 ∧ s.overdrive_enabled = true ∧
                   s.vehicle_speed_kmh >
                     getShiftPoint (if ts.power_mode then SHIFT_3_4_UP_PWR else SHIFT_3_4_UP)
                       s.throttle_percent then 4
           else
             (if s.overdrive_enabled = false ∧ ts.current_gear > 3 then 3
              else ts.current_gear))))

/-- `determineTargetGear` of the source.  The returned triple is the `int`
result, the transmission state after the call (the call mutates only
`kickdown_active`), and the kickdown statics after the call; the returned
value is `selectTarget` applied to the detector's result, and in limp
mode the function returns 3 before the detector is consulted. -/
def determineTargetGear (ts : TransmissionState) (s : SensorData) (now : Nat)
    (kd : KickdownState) : Int × TransmissionState × KickdownState :=
  if ts.limp_mode then (3, ts, kd)
  else
    (selectTarget ts s (isKickdownRequested s now kd).1,
     { ts with kickdown_active := (isKickdownRequested s now kd).1 },
     (isKickdownRequested s now kd).2)

/-- The solenoid pattern `executeShift` writes for a target gear; the C
`switch` has no default case, so an out-of-range gear leaves the pins
unchanged. -/
def gearSolenoids (to_gear : Int) (sol : Solenoids) : Solenoids :=
  if to_gear = 1 then { s1 := false, s2 := false }
  else if to_gear = 2 then { s1 := true, s2 := false }
  else if to_gear = 3 then { s1 := false, s2 := true }
  else if to_gear = 4 then { s1 := true, s2 := true }
  else sol

/-- `executeShift` of the source: writes the solenoids, sets
`current_gear := to_gear`, `last_shift_time := millis()`, and increments
`stats.total_shifts`.  `from_gear` is only printed by the source. -/
def executeShift (w : World) (from_gear to_gear : Int) (now : Nat) : World :=
  { w with
    sol := gearSolenoids to_gear w.sol,
    ts := { w.ts with current_gear := to_gear, last_shift_time := now },
    total_shifts := w.total_shifts + 1 }

/-- `updateAdaptiveLearning` of the source, acting on the transmission
state at time `now = millis()`. -/
def updateAdaptiveLearning (ts : TransmissionState) (s : SensorData) (now : Nat) :
    TransmissionState :=
  if ts.target_gear ≤ ts.current_gear then ts
  else if ts.kickdown_active = true then ts
  else if s.throttle_percent > 75 then ts
  else
    let shift_index : Int := ts.target_gear - 2
    if shift_index < 0 ∨ shift_index ≥ 3 then ts
    else
      let dur : Nat := now - ts.shift_start_time
      let off0 : Int := ts.shift_quality_offset.get shift_index
      let off1 : Int := if dur > 450 then off0 - 2 else if dur < 350 then off0 + 2 else off0
      let off2 : Int := if off1 < -20 then -20 else if off1 > 20 then 20 else off1
      { ts with
        shift_duration_ms := dur,
        shift_quality_offset := ts.shift_quality_offset.set shift_index off2,
        shift_count := ts.shift_count.set shift_index (ts.shift_count.get shift_index + 1) }

/-- Arduino's `constrain(x, lo, hi)`. -/
def clampI (x lo hi : Int) : Int :=
  if x < lo then lo else if x > hi then hi else x

/-- The `base_duty` of `calculateAccumulatorDuty` before fluid-temperature
compensation: the kickdown/firm/soft/medium selection during `InProgress`
plus the adaptive offset when `shift_index = target_gear - 2` is in
bounds, and `ACC_MEDIUM` in every other phase. -/
def accBase (ts : TransmissionState) (s : SensorData) : Int :=
  if ts.shift_state = ShiftState.InProgress then
    (if ts.kickdown_active = true then ACC_KICKDOWN
     else if s.throttle_percent > 60 then ACC_FIRM
     else if s.throttle_percent < 25 then ACC_SOFT
     else ACC_MEDIUM)
    + (if 0 ≤ ts.target_gear - 2 ∧ ts.target_gear - 2 < 3 then
         ts.shift_quality_offset.get (ts.target_gear - 2)
       else 0)
  else ACC_MEDIUM

/-- `calculateAccumulatorDuty` of the source: the base duty, the
fluid-temperature adjustments, then `constrain(…, 15, 85)`. -/
def calculateAccumulatorDuty (ts : TransmissionState) (s : SensorData) : Int :=
  clampI
    (if s.fluid_temp_c < 40 then accBase ts s - 20
     else if s.fluid_temp_c < 60 then accBase ts s - 10
     else if s.fluid_temp_c > 100 then accBase ts s + 10
     else accBase ts s)
    15 85

/-- The `can_lockup` local of `calculateLockupDuty`. -/
def canLockup (ts : TransmissionState) (s : SensorData) : Bool :=
  decide (ts.current_gear ≥ LOCKUP_ENABLE_GEAR) &&
  decide (s.vehicle_speed_kmh > LOCKUP_ENABLE_SPEED) &&
  decide (s.throttle_percent < LOCKUP_THROTTLE_MAX) &&
  decide (ts.shift_state = ShiftState.Stable) &&
  decide (s.fluid_temp_c > 50)

/-- The `must_unlock` local of `calculateLockupDuty`. -/
def mustUnlock (ts : TransmissionState) (s : SensorData) : Bool :=
  decide (s.vehicle_speed_kmh < LOCKUP_DISABLE_SPEED) ||
  decide (s.throttle_percent > LOCKUP_THROTTLE_MAX + 10) ||
  decide (ts.shift_state ≠ ShiftState.Stable) ||
  decide (ts.current_gear < LOCKUP_ENABLE_GEAR)

/-- `calculateLockupDuty` of the source: the returned pair is the `int`
duty together with `lockup_engaged` after the call (the source mutates
that flag in the `must_unlock` and `can_lockup` branches and — notably —
leaves it untouched in the final hysteresis-band `return 0`). -/
def calculateLockupDuty (ts : TransmissionState) (s : SensorData) : Int × Bool :=
  if mustUnlock ts s = true then (0, false)
  else if canLockup ts s = true then
    (if s.throttle_percent < 20 then 95 else if s.throttle_percent < 40 then 75 else 50, true)
  else (0, ts.lockup_engaged)

/-- The `SHIFT_STABLE` case of `processShiftLogic`: recompute
`target_gear`; if it disagrees with `current_gear` and the inhibit window
has elapsed, move to `Requested` and stamp `shift_start_time`. -/
def stepStable (w : World) (s : SensorData) (now : Nat) : World :=
  if (determineTargetGear w.ts s now w.kd).1 ≠ (determineTargetGear w.ts s now w.kd).2.1.current_gear ∧
     now - (determineTargetGear w.ts s now w.kd).2.1.last_shift_time > SHIFT_INHIBIT_TIME then
    { w with
      ts := { (determineTargetGear w.ts s now w.kd).2.1 with
              target_gear := (determineTargetGear w.ts s now w.kd).1,
              shift_state := ShiftState.Requested,
              shift_start_time := now },
      kd := (determineTargetGear w.ts s now w.kd).2.2 }
  else
    { w with
      ts := { (determineTargetGear w.ts s now w.kd).2.1 with
              target_gear := (determineTargetGear w.ts s now w.kd).1 },
      kd := (determineTargetGear w.ts s now w.kd).2.2 }

/-- The `SHIFT_REQUESTED` case of `processShiftLogic`: after the debounce
delay, re-run the selector; if it confirms the pending `target_gear`,
invoke `executeShift` and move to `InProgress`, otherwise fall back to
`Stable` with no side effect. -/
def stepRequested (w : World) (s : SensorData) (now : Nat) : World :=
  if now - w.ts.shift_start_time > SHIFT_DELAY then
    if (determineTargetGear w.ts s now w.kd).1 = (determineTargetGear w.ts s now w.kd).2.1.target_gear then
      executeShift
        { w with
          ts := { (determineTargetGear w.ts s now w.kd).2.1 with shift_state := ShiftState.InProgress },
          kd := (determineTargetGear w.ts s now w.kd).2.2 }
        (determineTargetGear w.ts s now w.kd).2.1.current_gear
        (determineTargetGear w.ts s now w.kd).2.1.target_gear
        now
    else
      { w with
        ts := { (determineTargetGear w.ts s now w.kd).2.1 with shift_state := ShiftState.Stable },
        kd := (determineTargetGear w.ts s now w.kd).2.2 }
  else w

/-- The `switch (trans_state.shift_state)` of `processShiftLogic`. -/
def stepMachine (w : World) (s : SensorData) (now : Nat) : World :=
  if w.ts.shift_state = ShiftState.Stable then stepStable w s now
  else if w.ts.shift_state = ShiftState.Requested then stepRequested w s now
  else if w.ts.shift_state = ShiftState.InProgress then
    (if now - w.ts.shift_start_time > SHIFT_COMPLETE_TIME then
       { w with ts := { w.ts with shift_state := ShiftState.Completing } }
     else w)
  else
    (if now - w.ts.shift_start_time > SHIFT_COMPLETE_TIME + 200 then
       { w with ts := updateAdaptiveLearning { w.ts with shift_state := ShiftState.Stable } s now }
     else w)

/-- `processShiftLogic` of the source: one tick of the shift state machine
followed by the accumulator- and lockup-duty computations and their
writes into the transmission state. -/
def processShiftLogic (w : World) (s : SensorData) (now : Nat) : World :=
  let w1 := stepMachine w s now
  { w1 with
    ts := { w1.ts with
            accumulator_duty := calculateAccumulatorDuty w1.ts s,
            lockup_duty := (calculateLockupDuty w1.ts s).1,
            lockup_engaged := (calculateLockupDuty w1.ts s).2 } }

/-- `forceGear` of the source (serial bench command): rejects gears
outside 1..4 with an early return, otherwise sets both gears and invokes
`executeShift`. -/
def forceGear (w : World) (gear : Int) (now : Nat) : World :=
  if gear < 1 ∨ gear > 4 then w
  else
    executeShift
      { w with ts := { w.ts with current_gear := gear, target_gear := gear } }
      gear gear now

/-- `initTransmission` of the source. -/
def initTransmission : TransmissionState :=
  { current_gear := 1
    target_gear := 1
    shift_state := ShiftState.Stable
    shift_start_time := 0
    last_shift_time := 0
    shift_duration_ms := 0
    kickdown_active := false
    power_mode := false
    lockup_engaged := false
    lockup_duty := 0
    accumulator_duty := ACC_MEDIUM
    shift_quality_offset := ⟨0, 0, 0⟩
    shift_count := ⟨0, 0, 0⟩
    limp_mode := false }

/-- The power-on world: `initTransmission`, zeroed kickdown statics,
both gear solenoids LOW, zero total shifts. -/
def initWorld : World :=
  { ts := initTransmission
    kd := { last_throttle := 0, throttle_change_time := 0 }
    sol := { s1 := false, s2 := false }
    total_shifts := 0 }

/-- Iterated ticks: `runTo w0 clk sens k` is the world after the first `k`
ticks, where tick `k` runs at time `clk k` with sensor snapshot `sens k`. -/
def runTo (w0 : World) (clk : Nat → Nat) (sens : Nat → SensorData) : Nat → World
  | 0 => w0
  | Nat.succ k => processShiftLogic (runTo w0 clk sens k) (sens k) (clk k)

/-- Tick `k` invoked `executeShift` exactly when it incremented
`stats.total_shifts` (the tick's only writer of that counter). -/
def firedAt (w0 : World) (clk : Nat → Nat) (sens : Nat → SensorData) (k : Nat) : Prop :=
  (runTo w0 clk sens k).total_shifts < (runTo w0 clk sens (k + 1)).total_shifts

/-- State-machine invariant: while a request is pending, the episode start
lies strictly beyond the inhibit window measured from the last shift. -/
def requestGapInv (w : World) : Prop :=
  w.ts.shift_state = ShiftState.Requested →
    w.ts.shift_start_time ≥ w.ts.last_shift_time + (SHIFT_INHIBIT_TIME + 1)

instance (w0 : World) (clk : Nat → Nat) (sens : Nat → SensorData) (k : Nat) :
    Decidable (firedAt w0 clk sens k) := by
  unfold firedAt; infer_instance

instance (w : World) : Decidable (requestGapInv w) := by
  unfold requestGapInv; infer_instance

/-! Concrete snapshots and states used by the claim-level theorems. -/

/-- Moderate cruise snapshot: 30 % throttle, 30 km/h, warm fluid,
overdrive on, no brake. -/
def sensA : SensorData :=
  { throttle_percent := 30, vehicle_speed_kmh := 30, fluid_temp_c := 80,
    brake_pressed := false, overdrive_enabled := true }

/-- Same as `sensA` at 60 km/h. -/
def sensB : SensorData := { sensA with vehicle_speed_kmh := 60 }

/-- World in `Completing` right after a confirmed 1→2 upshift episode:
`executeShift` has already set `current_gear := 2` (equal to
`target_gear`), the episode began at 1000 ms and fired at 1300 ms. -/
def c1w : World :=
  { ts := { initTransmission with
            current_gear := 2, target_gear := 2,
            shift_state := ShiftState.Completing,
            shift_start_time := 1000, last_shift_time := 1300 }
    kd := { last_throttle := 30, throttle_change_time := 1000 }
    sol := { s1 := true, s2 := false }
    total_shifts := 1 }

/-- Gear-3 cruise state with the lockup clutch currently engaged. -/
def c3ts : TransmissionState :=
  { initTransmission with current_gear := 3, target_gear := 3, lockup_engaged := true }

/-- Hysteresis-band snapshot for `c3ts`: 55 km/h (between the 50 km/h
disable and 60 km/h enable speeds), 30 % throttle, warm fluid. -/
def c3s : SensorData := { sensA with vehicle_speed_kmh := 55 }

/-- Limp mode latched in the middle of a 1→2 shift episode. -/
def c4w : World :=
  { ts := { initTransmission with
            current_gear := 1, target_gear := 2,
            shift_state := ShiftState.InProgress,
            shift_start_time := 1000, limp_mode := true }
    kd := { last_throttle := 30, throttle_change_time := 0 }
    sol := { s1 := false, s2 := false }
    total_shifts := 1 }

/-- Limp mode latched while the machine is `Stable`. -/
def c4sw : World :=
  { initWorld with ts := { initTransmission with limp_mode := true } }

/-- A state whose `current_gear` is the invalid value 5. -/
def c5w : World :=
  { initWorld with ts := { initTransmission with current_gear := 5, target_gear := 5 } }

/-- Idle snapshot with overdrive on. -/
def c5s : SensorData :=
  { throttle_percent := 0, vehicle_speed_kmh := 0, fluid_temp_c := 80,
    brake_pressed := false, overdrive_enabled := true }

/-- Kickdown statics holding a previous throttle sample of 50 %. -/
def c6kd : KickdownState := { last_throttle := 50, throttle_change_time := 0 }

/-- Snapshot whose throttle sits exactly 20 points above `c6kd`'s sample. -/
def c6sA : SensorData := { sensA with throttle_percent := 70 }

/-- Snapshot whose throttle sits 21 points above `c6kd`'s sample. -/
def c6sB : SensorData := { sensA with throttle_percent := 71 }

/-- Clock for the two-shift scenario: tick `k` runs at `1000 + 300 k` ms. -/
def c8clk : Nat → Nat := fun k => 1000 + 300 * k

/-- Sensor stream for the two-shift scenario: 30 km/h for the first four
ticks, then 60 km/h, at a steady 30 % throttle. -/
def c8sens : Nat → SensorData := fun k => if k ≤ 3 then sensA else sensB

/-- Stable gear-4 state (as reached with overdrive previously enabled). -/
def c9w : World :=
  { initWorld with ts := { initTransmission with current_gear := 4, target_gear := 4 } }

/-- 100 km/h cruise snapshot with the overdrive switch off. -/
def c9s : SensorData :=
  { throttle_percent := 30, vehicle_speed_kmh := 100, fluid_temp_c := 80,
    brake_pressed := false, overdrive_enabled := false }

/-- Gear-4 state with a pending 4→3 request (overdrive just switched
off), past the inhibit window, about to confirm. -/
def c9fw : World :=
  { ts := { initTransmission with
            current_gear := 4, target_gear := 3,
            shift_state := ShiftState.Requested,
            shift_start_time := 1000, last_shift_time := 0 }
    kd := { last_throttle := 30, throttle_change_time := 0 }
    sol := { s1 := true, s2 := true }
    total_shifts := 1 }

/-- The base duty of §4.3 of the spec, written from the claim's wording:
kickdown/firm/soft/medium selection plus the adaptive offset whenever
`target_gear ∈ {2,3,4}`, and `ACC_MEDIUM` outside `InProgress`. -/
def spec_acc_base (ts : TransmissionState) (s : SensorData) : Int :=
  if ts.shift_state = ShiftState.InProgress then
    (if ts.kickdown_active = true then 20
     else if s.throttle_percent > 60 then 30
     else if s.throttle_percent < 25 then 70
     else 50)
    + (if ts.target_gear = 2 ∨ ts.target_gear = 3 ∨ ts.target_gear = 4 then
         ts.shift_quality_offset.get (ts.target_gear - 2)
       else 0)
  else 50

/-- The fluid-temperature compensation of §4.3 of the spec, written from
the claim's wording. -/
def spec_temp_comp (s : SensorData) : Int :=
  if s.fluid_temp_c < 40 then -20
  else if s.fluid_temp_c < 60 then -10
  else if s.fluid_temp_c > 100 then 10
  else 0

/-! Projection lemmas: the duty-cycle writes at the end of a tick touch
only `accumulator_duty`, `lockup_duty` and `lockup_engaged`, so every
other component of the world after `processShiftLogic` is that of
`stepMachine`. -/

lemma pSL_total (w : World) (s : SensorData) (now : Nat) :
    (processShiftLogic w s now).total_shifts = (stepMachine w s now).total_shifts := rfl

lemma pSL_state (w : World) (s : SensorData) (now : Nat) :
    (processShiftLogic w s now).ts.shift_state = (stepMachine w s now).ts.shift_state := rfl

lemma pSL_target (w : World) (s : SensorData) (now : Nat) :
    (processShiftLogic w s now).ts.target_gear = (stepMachine w s now).ts.target_gear := rfl

lemma pSL_current (w : World) (s : SensorData) (now : Nat) :
    (processShiftLogic w s now).ts.current_gear = (stepMachine w s now).ts.current_gear := rfl

lemma pSL_last (w : World) (s : SensorData) (now : Nat) :
    (processShiftLogic w s now).ts.last_shift_time = (stepMachine w s now).ts.last_shift_time := rfl

lemma pSL_start (w : World) (s : SensorData) (now : Nat) :
    (processShiftLogic w s now).ts.shift_start_time = (stepMachine w s now).ts.shift_start_time := rfl

lemma pSL_limp (w : World) (s : SensorData) (now : Nat) :
    (processShiftLogic w s now).ts.limp_mode = (stepMachine w s now).ts.limp_mode := rfl

lemma pSL_acc (w : World) (s : SensorData) (now : Nat) :
    (processShiftLogic w s now).ts.accumulator_duty
      = calculateAccumulatorDuty (stepMachine w s now).ts s := rfl

/-- `determineTargetGear` mutates the transmission state only through
`kickdown_active`. -/
lemma dtg_snd (ts : TransmissionState) (s : SensorData) (now : Nat) (kd : KickdownState) :
    ∃ b, (determineTargetGear ts s now kd).2.1 = { ts with kickdown_active := b } := by
  unfold determineTargetGear
  split
  · exact ⟨ts.kickdown_active, rfl⟩
  · exact ⟨(isKickdownRequested s now kd).1, rfl⟩

/-- In limp mode the gear selector returns 3 unconditionally. -/
lemma dtg_limp (ts : TransmissionState) (s : SensorData) (now : Nat) (kd : KickdownState)
    (h : ts.limp_mode = true) : (determineTargetGear ts s now kd).1 = 3 := by
  unfold determineTargetGear
  simp [h]

/-- `updateAdaptiveLearning` touches only `shift_duration_ms`,
`shift_quality_offset` and `shift_count`. -/
lemma uAL_preserved (ts : TransmissionState) (s : SensorData) (now : Nat) :
    (updateAdaptiveLearning ts s now).shift_state = ts.shift_state ∧
    (updateAdaptiveLearning ts s now).limp_mode = ts.limp_mode ∧
    (updateAdaptiveLearning ts s now).last_shift_time = ts.last_shift_time ∧
    (updateAdaptiveLearning ts s now).current_gear = ts.current_gear ∧
    (updateAdaptiveLearning ts s now).target_gear = ts.target_gear ∧
    (updateAdaptiveLearning ts s now).shift_start_time = ts.shift_start_time := by
  unfold updateAdaptiveLearning
  split_ifs <;> try simp
  all_goals split_ifs <;> simp

lemma stepStable_total (w : World) (s : SensorData) (now : Nat) :
    (stepStable w s now).total_shifts = w.total_shifts := by
  unfold stepStable
  split_ifs <;> rfl

/-- A tick increments `total_shifts` only in the `Requested` case, after
the debounce gate, with the selector confirming the pending target; in
that case `executeShift` stamps `last_shift_time := now` and moves
`current_gear` to the (confirmed) selector output. -/
lemma fired_step_main (w : World) (s : SensorData) (now : Nat)
    (hf : (processShiftLogic w s now).total_shifts > w.total_shifts) :
    w.ts.shift_state = ShiftState.Requested ∧
    now - w.ts.shift_start_time > SHIFT_DELAY ∧
    (processShiftLogic w s now).ts.last_shift_time = now ∧
    (processShiftLogic w s now).ts.current_gear = (determineTargetGear w.ts s now w.kd).1 := by
  rw [pSL_total] at hf
  rw [pSL_last, pSL_current]
  unfold stepMachine at hf ⊢
  split_ifs at hf ⊢ with h1 h2 h3 h4 h5
  · rw [stepStable_total] at hf
    exact absurd hf (lt_irrefl _)
  · unfold stepRequested at hf ⊢
    split_ifs at hf ⊢ with hg hr
    · refine ⟨h2, hg, rfl, ?_⟩
      rw [hr]
      rfl
    · exact absurd hf (lt_irrefl _)
    · exact absurd hf (lt_irrefl _)
  · exact absurd hf (lt_irrefl _)
  · exact absurd hf (lt_irrefl _)
  · exact absurd hf (lt_irrefl _)
  · exact absurd hf (lt_irrefl _)

/-- The inhibit-window invariant is preserved by every tick. -/
lemma inv_step (w : World) (s : SensorData) (now : Nat) (h : requestGapInv w) :
    requestGapInv (processShiftLogic w s now) := by
  unfold requestGapInv at h ⊢
  rw [pSL_state, pSL_start, pSL_last]
  unfold stepMachine
  split_ifs with h1 h2 h3 h4 h5
  · obtain ⟨b, hb⟩ := dtg_snd w.ts s now w.kd
    unfold stepStable
    rw [hb]
    split_ifs with hc
    · intro _
      have hc2 := hc.2
      simp only [SHIFT_INHIBIT_TIME] at hc2 ⊢
      simp at hc2 ⊢
      omega
    · intro hcon
      simp [h1] at hcon
  · unfold stepRequested
    split_ifs with hg hr
    · intro hcon
      simp [executeShift] at hcon
    · intro hcon
      simp at hcon
    · exact h
  · intro hcon
    simp at hcon
  · exact h
  · intro hcon
    simp only [World.ts] at hcon
    rw [(uAL_preserved _ _ _).1] at hcon
    simp at hcon
  · exact h

/-- A tick either leaves `last_shift_time` alone or stamps it with the
tick's own time. -/
lemma pSL_last_cases (w : World) (s : SensorData) (now : Nat) :
    (processShiftLogic w s now).ts.last_shift_time = w.ts.last_shift_time ∨
    (processShiftLogic w s now).ts.last_shift_time = now := by
  rw [pSL_last]
  unfold stepMachine
  split_ifs with h1 h2 h3 h4 h5
  · left
    obtain ⟨b, hb⟩ := dtg_snd w.ts s now w.kd
    unfold stepStable
    rw [hb]
    split_ifs <;> simp
  · unfold stepRequested
    split_ifs with hg hr
    · right
      rfl
    · left
      obtain ⟨b, hb⟩ := dtg_snd w.ts s now w.kd
      rw [hb]
    · left
      rfl
  · left
    rfl
  · left
    rfl
  · left
    simp [(uAL_preserved _ _ _).2.2.1]
  · left
    rfl

set_option maxHeartbeats 1000000 in
/-- With overdrive disabled the target chain never demands more than
third gear. -/
lemma selectTarget_le3 (ts : TransmissionState) (s : SensorData) (kick : Bool)
    (hOD : s.overdrive_enabled = false) : selectTarget ts s kick ≤ 3 := by
  unfold selectTarget
  rw [hOD]
  simp only [Bool.false_eq_true, false_and, and_false, if_false, eq_self_iff_true, true_and]
  split_ifs <;> omega

/-- With overdrive disabled the gear selector never demands more than
third gear. -/
lemma dtg_le3 (ts : TransmissionState) (s : SensorData) (now : Nat) (kd : KickdownState)
    (hOD : s.overdrive_enabled = false) : (determineTargetGear ts s now kd).1 ≤ 3 := by
  unfold determineTargetGear
  by_cases h : ts.limp_mode = true
  · rw [if_pos h]
  · rw [if_neg h]
    exact selectTarget_le3 ts s (isKickdownRequested s now kd).1 hOD

/-- Case analysis of the `Stable` tick: either the selector disagrees
with `current_gear` and the inhibit window is open, and the machine moves
to `Requested` with the new target installed; or the request is absent or
blocked, and the machine stays in its phase with the new target installed
and `current_gear` untouched. -/
lemma stepStable_cases (w : World) (s : SensorData) (now : Nat) :
    ((determineTargetGear w.ts s now w.kd).1 ≠ w.ts.current_gear ∧
       now - w.ts.last_shift_time > SHIFT_INHIBIT_TIME ∧
       (stepStable w s now).ts.shift_state = ShiftState.Requested ∧
       (stepStable w s now).ts.target_gear = (determineTargetGear w.ts s now w.kd).1) ∨
    (¬((determineTargetGear w.ts s now w.kd).1 ≠ w.ts.current_gear ∧
         now - w.ts.last_shift_time > SHIFT_INHIBIT_TIME) ∧
       (stepStable w s now).ts.shift_state = w.ts.shift_state ∧
       (stepStable w s now).ts.target_gear = (determineTargetGear w.ts s now w.kd).1 ∧
       (stepStable w s now).ts.current_gear = w.ts.current_gear) := by
  obtain ⟨b, hb⟩ := dtg_snd w.ts s now w.kd
  unfold stepStable
  rw [hb]
  split_ifs with hc
  · left
    exact ⟨by simpa using hc.1, by simpa using hc.2, rfl, rfl⟩
  · right
    refine ⟨?_, rfl, rfl, rfl⟩
    intro hcc
    exact hc ⟨by simpa using hcc.1, by simpa using hcc.2⟩

/-- `accBase` coincides with the spec's base-duty formula. -/
lemma accBase_eq_spec (ts : TransmissionState) (s : SensorData) :
    accBase ts s = spec_acc_base ts s := by
  unfold accBase spec_acc_base ACC_KICKDOWN ACC_FIRM ACC_SOFT ACC_MEDIUM
  split_ifs <;> omega

/-! Claim-level theorems. -/

/-- C1: the spec says the Completing→Stable tick of a confirmed upshift
episode (pre-shift gear g, target g+1, no kickdown, throttle ≤ 75) moves
`shift_quality_offset[t−2]` by ±2 against the 350–450 ms envelope and
increments `shift_count[t−2]`.  The code never does: `executeShift` has
already set `current_gear := target_gear` when `updateAdaptiveLearning`
runs, so its guard `target_gear <= current_gear` always returns early.
Here a 1→2 episode measuring 800 ms (> 450) with no kickdown and 30 %
throttle reaches the edge and leaves every offset and counter at 0,
where the claim demands `shift_quality_offset[0] = −2` and
`shift_count[0] = 1`. -/
theorem c1_adaptive_update_never_fires :
    (processShiftLogic c1w sensA 1800).ts.shift_state = ShiftState.Stable ∧
    1800 - c1w.ts.shift_start_time > 450 ∧
    c1w.ts.kickdown_active = false ∧
    sensA.throttle_percent ≤ 75 ∧
    (processShiftLogic c1w sensA 1800).ts.shift_quality_offset = ⟨0, 0, 0⟩ ∧
    (processShiftLogic c1w sensA 1800).ts.shift_count = ⟨0, 0, 0⟩ := by
  decide

/-- C2 (counterexample): at 100 ms the selector demands gear 2 from gear
1, the inhibit window (`last_shift_time = 0`) blocks the request, and the
machine stays `Stable` with `target_gear ≠ current_gear` at the end of
this tick and again at the end of the next tick — refuting both the
claimed end-of-tick implication `Stable ⇒ current = target` and the
claim that a mismatch never persists across two consecutive Stable
ticks. -/
theorem c2_mismatch_persists_counterexample :
    (processShiftLogic initWorld sensA 100).ts.shift_state = ShiftState.Stable ∧
    (processShiftLogic initWorld sensA 100).ts.target_gear ≠
      (processShiftLogic initWorld sensA 100).ts.current_gear ∧
    (processShiftLogic (processShiftLogic initWorld sensA 100) sensA 120).ts.shift_state
      = ShiftState.Stable ∧
    (processShiftLogic (processShiftLogic initWorld sensA 100) sensA 120).ts.target_gear ≠
      (processShiftLogic (processShiftLogic initWorld sensA 100) sensA 120).ts.current_gear := by
  decide

/-- C2 (amended): a tick that starts in `Stable` and ends in `Stable`
with `target_gear ≠ current_gear` can only be one whose shift request was
blocked by the inhibit window, i.e. `now − last_shift_time ≤ 800` at that
tick; such a blocked mismatch may persist across consecutive Stable
ticks. -/
theorem c2_stable_mismatch_inhibited (w : World) (s : SensorData) (now : Nat)
    (h0 : w.ts.shift_state = ShiftState.Stable)
    (h1 : (processShiftLogic w s now).ts.shift_state = ShiftState.Stable)
    (h2 : (processShiftLogic w s now).ts.target_gear ≠
            (processShiftLogic w s now).ts.current_gear) :
    now - w.ts.last_shift_time ≤ SHIFT_INHIBIT_TIME := by
  rw [pSL_state] at h1
  rw [pSL_target, pSL_current] at h2
  unfold stepMachine at h1 h2
  rw [if_pos h0] at h1 h2
  rcases stepStable_cases w s now with ⟨hne, ht, hst, htg⟩ | ⟨hc, hst, htg, hcg⟩
  · rw [hst] at h1
    simp at h1
  · rw [htg, hcg] at h2
    by_cases ht : now - w.ts.last_shift_time > SHIFT_INHIBIT_TIME
    · exact absurd ⟨h2, ht⟩ hc
    · omega

/-- C2 (witness): the blocked first tick of the counterexample run
instantiates the amended statement. -/
theorem c2_stable_mismatch_inhibited_witness :
    100 - initWorld.ts.last_shift_time ≤ SHIFT_INHIBIT_TIME :=
  c2_stable_mismatch_inhibited initWorld sensA 100 (by decide) (by decide) (by decide)

/-- C3 (counterexample): in the hysteresis band (gear 3, Stable, 55 km/h,
30 % throttle, 80 °C — neither `must_unlock` nor `can_lockup`) the duty
is 0 but `lockup_engaged` remains `true`; the claim says the tick sets it
to `false`. -/
theorem c3_hysteresis_counterexample :
    mustUnlock c3ts c3s = false ∧ canLockup c3ts c3s = false ∧
    calculateLockupDuty c3ts c3s = (0, true) := by
  decide

/-- C3 (amended): whenever neither `must_unlock` nor `can_lockup` holds,
`calculateLockupDuty` returns duty 0 and leaves `lockup_engaged`
unchanged (the hysteresis-band `return 0` does not touch the flag). -/
theorem c3_hysteresis_keeps_engaged (ts : TransmissionState) (s : SensorData)
    (h1 : mustUnlock ts s = false) (h2 : canLockup ts s = false) :
    calculateLockupDuty ts s = (0, ts.lockup_engaged) := by
  unfold calculateLockupDuty
  rw [h1, h2]
  simp

/-- C3 (witness): the hysteresis-band state with the clutch engaged. -/
theorem c3_hysteresis_keeps_engaged_witness :
    calculateLockupDuty c3ts c3s = (0, c3ts.lockup_engaged) :=
  c3_hysteresis_keeps_engaged c3ts c3s (by decide) (by decide)

/-- C4 (counterexample): a tick executed with `limp_mode = true` that
starts in `InProgress` (limp latched mid-episode) ends with
`target_gear = 2`, not 3 — `target_gear` is only recomputed in the
`Stable` case, so the claim's "regardless of the shift_phase in which the
tick starts" fails. -/
theorem c4_limp_counterexample :
    c4w.ts.limp_mode = true ∧
    c4w.ts.shift_state = ShiftState.InProgress ∧
    (processShiftLogic c4w sensA 1100).ts.target_gear = 2 ∧
    (processShiftLogic c4w sensA 1100).ts.target_gear ≠ 3 := by
  decide

/-- C4 (amended): for every tick executed with `limp_mode = true` that
starts in `shift_phase = Stable`, `target_gear = 3` at the end of the
tick, regardless of all sensor inputs. -/
theorem c4_limp_target3_from_stable (w : World) (s : SensorData) (now : Nat)
    (hl : w.ts.limp_mode = true) (h0 : w.ts.shift_state = ShiftState.Stable) :
    (processShiftLogic w s now).ts.target_gear = 3 := by
  rw [pSL_target]
  unfold stepMachine
  rw [if_pos h0]
  rcases stepStable_cases w s now with ⟨-, -, -, htg⟩ | ⟨-, -, htg, -⟩ <;>
    rw [htg] <;> exact dtg_limp w.ts s now w.kd hl

/-- C4 (witness): a Stable limp-mode tick lands on target gear 3. -/
theorem c4_limp_target3_from_stable_witness :
    (processShiftLogic c4sw sensA 100).ts.target_gear = 3 :=
  c4_limp_target3_from_stable c4sw sensA 100 (by decide) (by decide)

/-- C5: the spec's GearInvalid error class demands that
`current_gear ∉ {1..4}` trip `limp_mode` and return the gear to 3.  The
control core contains no such defensive check: no tick ever writes
`limp_mode` (first conjunct), and a tick starting at the invalid gear 5
with overdrive enabled leaves `limp_mode = false` and both gears at 5. -/
theorem c5_gear_invalid_no_limp_trip :
    (∀ (w : World) (s : SensorData) (now : Nat),
        (processShiftLogic w s now).ts.limp_mode = w.ts.limp_mode) ∧
    c5w.ts.current_gear = 5 ∧
    (processShiftLogic c5w c5s 100).ts.limp_mode = false ∧
    (processShiftLogic c5w c5s 100).ts.target_gear = 5 ∧
    (processShiftLogic c5w c5s 100).ts.current_gear = 5 := by
  constructor
  · intro w s now
    rw [pSL_limp]
    unfold stepMachine
    split_ifs with h1 h2 h3 h4 h5
    · unfold stepStable
      obtain ⟨b, hb⟩ := dtg_snd w.ts s now w.kd
      rw [hb]
      split_ifs <;> simp
    · unfold stepRequested
      obtain ⟨b, hb⟩ := dtg_snd w.ts s now w.kd
      split_ifs with hg hr
      · simp [executeShift, hb]
      · simp [hb]
      · rfl
    · rfl
    · rfl
    · simp [(uAL_preserved _ _ _).2.1]
    · rfl
  · exact ⟨by decide, by decide, by decide, by decide⟩

/-- C6 (counterexample): with the previous sample at 50 % and the current
sample at 70 % the rise is exactly 20 points — at least 20, as the claim
requires — yet the detector records no sharp-rise timestamp, because the
source tests `throttle - last_throttle > 20` strictly. -/
theorem c6_kickdown_counterexample :
    c6sA.throttle_percent - c6kd.last_throttle ≥ 20 ∧
    (isKickdownRequested c6sA 10000 c6kd).2.throttle_change_time ≠ 10000 ∧
    (isKickdownRequested c6sA 10000 c6kd).2.throttle_change_time = 0 := by
  decide

/-- C6 (amended): the detector records a sharp-rise timestamp exactly
when the current sample exceeds the previous one by strictly more than
20 points, and reports kickdown active iff throttle > 85 and less than
200 ms have elapsed since the last recorded sharp rise. -/
theorem c6_kickdown_strict_threshold (s : SensorData) (now : Nat) (kd : KickdownState) :
    (s.throttle_percent - kd.last_throttle > 20 →
      (isKickdownRequested s now kd).2.throttle_change_time = now) ∧
    (s.throttle_percent - kd.last_throttle ≤ 20 →
      (isKickdownRequested s now kd).2.throttle_change_time = kd.throttle_change_time) ∧
    ((isKickdownRequested s now kd).1 = true ↔
      s.throttle_percent > 85 ∧
        now - (isKickdownRequested s now kd).2.throttle_change_time < 200) := by
  refine ⟨?_, ?_, ?_⟩
  · intro h
    simp only [isKickdownRequested]
    rw [if_pos h]
  · intro h
    simp only [isKickdownRequested]
    rw [if_neg (by omega)]
  · simp only [isKickdownRequested, KICKDOWN_THRESHOLD]
    simp [Bool.and_eq_true, decide_eq_true_eq]

/-- C6 (witness): a 21-point rise records the timestamp and a 20-point
rise does not. -/
theorem c6_kickdown_strict_threshold_witness :
    (isKickdownRequested c6sB 10000 c6kd).2.throttle_change_time = 10000 ∧
    (isKickdownRequested c6sA 10000 c6kd).2.throttle_change_time
      = c6kd.throttle_change_time :=
  ⟨(c6_kickdown_strict_threshold c6sB 10000 c6kd).1 (by decide),
   (c6_kickdown_strict_threshold c6sA 10000 c6kd).2.1 (by decide)⟩

/-- C7: `calculateAccumulatorDuty` equals the spec's
`clamp(base + temp_comp, 15, 85)` with base and compensation exactly as
the claim states them, and the value — hence the accumulator duty
written at the end of every tick — always lies in [15, 85]. -/
theorem c7_accumulator_duty_spec (ts : TransmissionState) (s : SensorData)
    (w : World) (now : Nat) :
    calculateAccumulatorDuty ts s = clampI (spec_acc_base ts s + spec_temp_comp s) 15 85 ∧
    15 ≤ calculateAccumulatorDuty ts s ∧ calculateAccumulatorDuty ts s ≤ 85 ∧
    15 ≤ (processShiftLogic w s now).ts.accumulator_duty ∧
    (processShiftLogic w s now).ts.accumulator_duty ≤ 85 := by
  have hrange : ∀ ts2 : TransmissionState,
      15 ≤ calculateAccumulatorDuty ts2 s ∧ calculateAccumulatorDuty ts2 s ≤ 85 := by
    intro ts2
    unfold calculateAccumulatorDuty clampI
    split_ifs <;> omega
  have heq : calculateAccumulatorDuty ts s
      = clampI (spec_acc_base ts s + spec_temp_comp s) 15 85 := by
    unfold calculateAccumulatorDuty spec_temp_comp
    rw [accBase_eq_spec]
    congr 1
    split_ifs <;> omega
  refine ⟨heq, (hrange ts).1, (hrange ts).2, ?_, ?_⟩
  · rw [pSL_acc]
    exact (hrange (stepMachine w s now).ts).1
  · rw [pSL_acc]
    exact (hrange (stepMachine w s now).ts).2

/-- C8: along any tick-driven run with a monotone clock (operator
commands excluded — they are not part of `processShiftLogic`), any two
ticks that invoke `executeShift` are separated by more than
`SHIFT_INHIBIT_MS = 800` ms of clock time: entry into `Requested`
requires `now − last_shift_time > 800`, `executeShift` stamps
`last_shift_time` when it fires, and the debounce delay only widens the
gap. -/
theorem c8_shift_inhibit (w0 : World) (clk : Nat → Nat) (sens : Nat → SensorData)
    (hinv : requestGapInv w0)
    (hmono : ∀ a b : Nat, a ≤ b → clk a ≤ clk b)
    (i j : Nat) (hij : i < j)
    (hi : firedAt w0 clk sens i) (hj : firedAt w0 clk sens j) :
    clk j > clk i + SHIFT_INHIBIT_TIME := by
  have hinvAll : ∀ k, requestGapInv (runTo w0 clk sens k) := by
    intro k
    induction k with
    | zero => exact hinv
    | succ k ih => exact inv_step _ _ _ ih
  have hbound : ∀ k, firedAt w0 clk sens k →
      clk k ≥ (runTo w0 clk sens k).ts.last_shift_time
        + (SHIFT_INHIBIT_TIME + SHIFT_DELAY + 2) ∧
      (runTo w0 clk sens (k + 1)).ts.last_shift_time = clk k := by
    intro k hk
    have hf : (processShiftLogic (runTo w0 clk sens k) (sens k) (clk k)).total_shifts
        > (runTo w0 clk sens k).total_shifts := hk
    have hm := fired_step_main _ _ _ hf
    have hiv := hinvAll k hm.1
    have hd := hm.2.1
    refine ⟨?_, hm.2.2.1⟩
    simp only [SHIFT_DELAY, SHIFT_INHIBIT_TIME] at hd hiv ⊢
    omega
  have hstep : ∀ m, clk i ≤ (runTo w0 clk sens (i + 1 + m)).ts.last_shift_time := by
    intro m
    induction m with
    | zero =>
        have h := (hbound i hi).2
        simp only [Nat.add_zero]
        omega
    | succ m ih =>
        have hc := pSL_last_cases (runTo w0 clk sens (i + 1 + m))
          (sens (i + 1 + m)) (clk (i + 1 + m))
        have he : runTo w0 clk sens (i + 1 + (m + 1))
            = processShiftLogic (runTo w0 clk sens (i + 1 + m))
                (sens (i + 1 + m)) (clk (i + 1 + m)) := rfl

        rw [he]
        rcases hc with hc | hc
        · rw [hc]
          exact ih
        · rw [hc]
          exact hmono i (i + 1 + m) (by omega)
  have hjb := hbound j hj
  have hlast : clk i ≤ (runTo w0 clk sens j).ts.last_shift_time := by
    obtain ⟨m, hm⟩ : ∃ m, j = i + 1 + m := ⟨j - (i + 1), by omega⟩
    rw [hm]
    exact hstep m
  have h1 := hjb.1
  simp only [SHIFT_INHIBIT_TIME, SHIFT_DELAY] at h1 ⊢
  omega

/-- C8 (witness): along the concrete run that upshifts 1→2 at tick 1
(1300 ms) and 2→3 at tick 5 (2500 ms), the two `executeShift`
invocations are 1200 ms apart — more than 800 ms. -/
theorem c8_shift_inhibit_witness :
    firedAt initWorld c8clk c8sens 1 ∧ firedAt initWorld c8clk c8sens 5 ∧
    c8clk 5 > c8clk 1 + SHIFT_INHIBIT_TIME :=
  ⟨by decide, by decide,
   c8_shift_inhibit initWorld c8clk c8sens (by decide)
     (fun a b h => by simp only [c8clk]; omega) 1 5 (by omega) (by decide) (by decide)⟩

/-- C9 (counterexample): a Stable gear-4 state with overdrive switched
off still has `current_gear = 4` after one tick (the 4→3 request merely
enters `Requested`) and after a second tick 20 ms later (still inside
the debounce delay) — the gear-4 state persists past the next tick,
contrary to the claim's second half. -/
theorem c9_gear4_persists_counterexample :
    c9s.overdrive_enabled = false ∧
    c9w.ts.current_gear = 4 ∧
    (processShiftLogic c9w c9s 1000).ts.current_gear = 4 ∧
    (processShiftLogic (processShiftLogic c9w c9s 1000) c9s 1020).ts.current_gear = 4 := by
  decide

/-- C9 (amended): with `overdrive_enabled = false` the selector never
returns 4 for any `current_gear ∈ {1,2,3,4}` and any sensor input, and
every `executeShift` fired on a tick whose snapshot has overdrive off
lands on a gear ≤ 3; `current_gear = 4` can persist through the inhibit
and debounce windows until that shift fires, not merely one tick. -/
theorem c9_overdrive_inhibit :
    (∀ (ts : TransmissionState) (s : SensorData) (now : Nat) (kd : KickdownState),
        s.overdrive_enabled = false → 1 ≤ ts.current_gear → ts.current_gear ≤ 4 →
        (determineTargetGear ts s now kd).1 ≠ 4) ∧
    (∀ (w : World) (s : SensorData) (now : Nat),
        s.overdrive_enabled = false →
        (processShiftLogic w s now).total_shifts > w.total_shifts →
        (processShiftLogic w s now).ts.current_gear ≤ 3) := by
  constructor
  · intro ts s now kd hOD hg1 hg4
    have h := dtg_le3 ts s now kd hOD
    omega
  · intro w s now hOD hf
    have hm := fired_step_main w s now hf
    rw [hm.2.2.2]
    exact dtg_le3 w.ts s now w.kd hOD

/-- C9 (witness): from gear 4 with overdrive off the selector demands 3,
and the confirmed 4→3 shift of `c9fw` fires onto gear 3. -/
theorem c9_overdrive_inhibit_witness :
    (determineTargetGear c9w.ts c9s 0 c9w.kd).1 ≠ 4 ∧
    (processShiftLogic c9fw c9s 1300).ts.current_gear ≤ 3 :=
  ⟨c9_overdrive_inhibit.1 c9w.ts c9s 0 c9w.kd (by decide) (by decide) (by decide),
   c9_overdrive_inhibit.2 c9fw c9s 1300 (by decide) (by decide)⟩

/-- C10: `forceGear` returns immediately on any gear outside 1..4,
leaving the whole world (transmission state, solenoids, `last_shift_time`
and the total shift counter) unchanged; for g ∈ {1,2,3,4} it sets both
`current_gear` and `target_gear` to g, performs `executeShift`'s solenoid
write for g, stamps `last_shift_time` and increments the counter. -/
theorem c10_force_gear (w : World) (g : Int) (now : Nat) :
    ((g < 1 ∨ g > 4) → forceGear w g now = w) ∧
    (1 ≤ g → g ≤ 4 →
      (forceGear w g now).ts.current_gear = g ∧
      (forceGear w g now).ts.target_gear = g ∧
      (forceGear w g now).sol = gearSolenoids g w.sol ∧
      (forceGear w g now).ts.last_shift_time = now ∧
      (forceGear w g now).total_shifts = w.total_shifts + 1) := by
  constructor
  · intro h
    unfold forceGear
    rw [if_pos h]
  · intro h1 h2
    unfold forceGear
    rw [if_neg (by omega)]
    exact ⟨rfl, rfl, rfl, rfl, rfl⟩

/-- C10 (witness): `forceGear 0` is a no-op and `forceGear 2` installs
second gear. -/
theorem c10_force_gear_witness :
    forceGear initWorld 0 5 = initWorld ∧
    (forceGear initWorld 2 5).ts.current_gear = 2 ∧
    (forceGear initWorld 2 5).ts.target_gear = 2 ∧
    (forceGear initWorld 2 5).sol = gearSolenoids 2 initWorld.sol ∧
    (forceGear initWorld 2 5).ts.last_shift_time = 5 ∧
    (forceGear initWorld 2 5).total_shifts = initWorld.total_shifts + 1 := by
  have h1 := (c10_force_gear initWorld 0 5).1 (Or.inl (by decide))
  have h2 := (c10_force_gear initWorld 2 5).2 (by decide) (by decide)
  exact ⟨h1, h2.1, h2.2.1, h2.2.2.1, h2.2.2.2.1, h2.2.2.2.2⟩

end A340
